import Mathlib

/-!
Shallow embedding of the server-side spaceship simulator
(`SpaceshipInterpolator`): movement/fuel tick loop, Redis-backed state
store, command handling and event publishing.  JavaScript numbers are
modelled as real numbers, with `JNum` adding the `NaN` value where the
code can observe it (the `parseFloat` boundary).  Stored hash fields are
modelled by small encoding types that record exactly what the
deserialization code can distinguish (missing field, empty string,
well-formed JSON array possibly containing nulls, unparsable string,
numeric string, non-numeric string).
-/

namespace Sputnik

/-- MOVEMENT_SPEED constant: units per second (default, env unset). -/
def MOVEMENT_SPEED : ℝ := 24.33

/-- ARRIVAL_THRESHOLD constant: units. -/
def ARRIVAL_THRESHOLD : ℝ := 10

/-- UPDATE_INTERVAL constant: milliseconds. -/
def UPDATE_INTERVAL : ℝ := 50

/-- FUEL_CONSUMPTION_RATE constant: fuel units per distance unit (default). -/
def FUEL_CONSUMPTION_RATE : ℝ := 0.01

/-- Vector3: three-component position/velocity/direction. -/
structure Vector3 where
  x : ℝ
  y : ℝ
  z : ℝ

theorem Vector3.ext_comp {a b : Vector3}
    (hx : a.x = b.x) (hy : a.y = b.y) (hz : a.z = b.z) : a = b := by
  cases a; cases b; simp_all

instance : Zero Vector3 := ⟨⟨0, 0, 0⟩⟩

instance : Add Vector3 := ⟨fun a b => ⟨a.x + b.x, a.y + b.y, a.z + b.z⟩⟩

instance : Sub Vector3 := ⟨fun a b => ⟨a.x - b.x, a.y - b.y, a.z - b.z⟩⟩

instance : SMul ℝ Vector3 := ⟨fun c v => ⟨c * v.x, c * v.y, c * v.z⟩⟩

@[simp] theorem Vector3.add_x (a b : Vector3) : (a + b).x = a.x + b.x := rfl

@[simp] theorem Vector3.add_y (a b : Vector3) : (a + b).y = a.y + b.y := rfl

@[simp] theorem Vector3.add_z (a b : Vector3) : (a + b).z = a.z + b.z := rfl

@[simp] theorem Vector3.sub_x (a b : Vector3) : (a - b).x = a.x - b.x := rfl

@[simp] theorem Vector3.sub_y (a b : Vector3) : (a - b).y = a.y - b.y := rfl

@[simp] theorem Vector3.sub_z (a b : Vector3) : (a - b).z = a.z - b.z := rfl

@[simp] theorem Vector3.smul_x (c : ℝ) (v : Vector3) : (c • v).x = c * v.x := rfl

@[simp] theorem Vector3.smul_y (c : ℝ) (v : Vector3) : (c • v).y = c * v.y := rfl

@[simp] theorem Vector3.smul_z (c : ℝ) (v : Vector3) : (c • v).z = c * v.z := rfl

@[simp] theorem Vector3.zero_x : (0 : Vector3).x = 0 := rfl

@[simp] theorem Vector3.zero_y : (0 : Vector3).y = 0 := rfl

@[simp] theorem Vector3.zero_z : (0 : Vector3).z = 0 := rfl

/-- Length of a vector, as in normalizeVector's local `length`. -/
noncomputable def vlen (v : Vector3) : ℝ :=
  Real.sqrt (v.x * v.x + v.y * v.y + v.z * v.z)

/-- normalizeVector: unit vector, or the zero vector for zero length. -/
noncomputable def normalizeVector (v : Vector3) : Vector3 :=
  let length := Real.sqrt (v.x * v.x + v.y * v.y + v.z * v.z)
  if length = 0 then ⟨0, 0, 0⟩
  else ⟨v.x / length, v.y / length, v.z / length⟩

/-- calculateDistance: Euclidean distance between two points. -/
noncomputable def calculateDistance (a b : Vector3) : ℝ :=
  Real.sqrt ((b.x - a.x) ^ 2 + (b.y - a.y) ^ 2 + (b.z - a.z) ^ 2)

/-- JavaScript number as observable by this code: a real or NaN. -/
inductive JNum
  | nan
  | num (r : ℝ)

/-- JavaScript subtraction on numbers: NaN propagates. -/
def JNum.sub : JNum → JNum → JNum
  | .num a, .num b => .num (a - b)
  | _, _ => .nan

/-- JavaScript comparison `a <= r`: false whenever `a` is NaN. -/
def JNum.jsLe : JNum → ℝ → Prop
  | .nan, _ => False
  | .num a, r => a ≤ r

noncomputable instance : (a : JNum) → (r : ℝ) → Decidable (JNum.jsLe a r)
  | .nan, _ => isFalse (fun h => h)
  | .num a, r => inferInstanceAs (Decidable (a ≤ r))

/-- Math.max(0, a): NaN propagates. -/
def JNum.max0 : JNum → JNum
  | .nan => .nan
  | .num a => .num (max 0 a)

/-- Underlying real of a JS number. Only consulted under guards that have
already ruled out NaN (the depletion branch is reached only when
`currentFuel - fuelConsumed <= 0` held, which is false for NaN). -/
def JNum.getNum : JNum → ℝ
  | .nan => 0
  | .num a => a

/-- Encoding of a stored string field that the code feeds to JSON.parse:
the empty string, the JSON literal null, a numeric array possibly
containing nulls, or a string JSON.parse rejects. -/
inductive JEnc
  | empty
  | jnull
  | arr (xs : List (Option ℝ))
  | malformed

/-- Encoding of the stored fuel string as seen by parseFloat: empty,
a string parseFloat reads as the number `r`, or one yielding NaN. -/
inductive FuelEnc
  | empty
  | numeric (r : ℝ)
  | nonNumeric

/-- Encoding a JS number with toString: NaN prints as a non-numeric
string, any other number round-trips through parseFloat. -/
def encodeJNum : JNum → FuelEnc
  | .nan => .nonNumeric
  | .num r => .numeric r

/-- The `sputnik:state` Redis hash; `none` means the field is absent. -/
structure Store where
  position : Option JEnc
  velocity : Option JEnc
  destination : Option JEnc
  fuel : Option FuelEnc
  isMoving : Option String
  timestamp : Option ℕ
  target_planet_id : Option String

/-- hGetAll returns an empty object iff every field is absent. -/
def Store.isEmpty (st : Store) : Bool :=
  st.position.isNone && st.velocity.isNone && st.destination.isNone &&
    st.fuel.isNone && st.isMoving.isNone && st.timestamp.isNone &&
    st.target_planet_id.isNone

/-- The empty hash (key not yet created). -/
def emptyStore : Store := ⟨none, none, none, none, none, none, none⟩

/-- Events published on `sputnik:events`. -/
inductive Event
  | fuel_update (fuel : JNum)
  | fuel_depleted (position : List ℝ) (timestamp : ℕ)
  | arrival (position : List ℝ) (fuel : JNum) (timestamp : ℕ)

/-- Whether an event is an arrival event. -/
def Event.isArrival : Event → Bool
  | .arrival _ _ _ => true
  | _ => false

/-- Number of arrival events in a published log. -/
def countArrivals (es : List Event) : ℕ := es.countP Event.isArrival

/-- Full state of one interpolator process: the in-memory fields of the
class, the Redis hash, and the logs of messages published on the events
and commands channels. -/
structure SimState where
  currentPosition : Vector3
  destination : Option Vector3
  isRunning : Bool
  isNotifyingArrival : Bool
  store : Store
  events : List Event
  cmds : List (List ℝ)

/-- getCurrentFuel: read the fuel field, defaulting to 100 when the field
is absent or the empty string (falsy); a non-numeric string parses to
NaN. -/
def getCurrentFuel (st : Store) : JNum :=
  match st.fuel with
  | none => .num 100
  | some .empty => .num 100
  | some (.numeric r) => .num r
  | some .nonNumeric => .nan

/-- updateFuel: write the fuel field and publish a fuel_update event. -/
def updateFuel (s : SimState) (newFuel : JNum) : SimState :=
  { s with
    store := { s.store with fuel := some (encodeJNum newFuel) }
    events := s.events ++ [Event.fuel_update newFuel] }

/-- calculateVelocity: direction towards the destination scaled by the
configured speed, or the zero array when idle. -/
noncomputable def calculateVelocity (s : SimState) : List ℝ :=
  match s.destination with
  | none => [0, 0, 0]
  | some d =>
    let direction := normalizeVector
      ⟨d.x - s.currentPosition.x, d.y - s.currentPosition.y,
        d.z - s.currentPosition.z⟩
    [direction.x * MOVEMENT_SPEED, direction.y * MOVEMENT_SPEED,
      direction.z * MOVEMENT_SPEED]

/-- updateRedisPosition: persist the position/velocity/destination
snapshot together with isMoving, the current fuel and a fresh
timestamp. -/
noncomputable def updateRedisPosition (s : SimState) (now : ℕ) : SimState :=
  { s with
    store :=
      { s.store with
        position := some (JEnc.arr
          [some s.currentPosition.x, some s.currentPosition.y,
            some s.currentPosition.z])
        velocity := some (JEnc.arr ((calculateVelocity s).map some))
        destination :=
          match s.destination with
          | some d => some (JEnc.arr [some d.x, some d.y, some d.z])
          | none => some JEnc.empty
        timestamp := some now
        isMoving := some (if s.isRunning then "true" else "false")
        fuel := some (encodeJNum (getCurrentFuel s.store)) } }

/-- startInterpolation: no-op when already running, otherwise activate
the timer and clear the arrival-notification flag. -/
def startInterpolation (s : SimState) : SimState :=
  if s.isRunning then s
  else { s with isRunning := true, isNotifyingArrival := false }

/-- stopInterpolation: no-op when already stopped, otherwise deactivate
the timer, persist the stopped snapshot and force isMoving to false. -/
noncomputable def stopInterpolation (s : SimState) (now : ℕ) : SimState :=
  if s.isRunning = false then s
  else
    let s1 := { s with isRunning := false }
    let s2 := updateRedisPosition s1 now
    { s2 with store := { s2.store with isMoving := some "false" } }

/-- Result of getState: the per-field parsed record. The destination is
returned exactly as JSON.parse produced it (nulls are not replaced). -/
structure ParsedState where
  position : List ℝ
  velocity : List ℝ
  destination : Option (List (Option ℝ))
  fuel : JNum
  target_planet_id : Option String
  isMoving : Bool

/-- Parse a position or velocity field: absent, empty, unparsable or
null encodings degrade to [0,0,0]; array elements that are null become
0 (the `val ?? 0` map). -/
def parseVecField (fld : Option JEnc) : List ℝ :=
  match fld with
  | none => [0, 0, 0]
  | some .empty => [0, 0, 0]
  | some .malformed => [0, 0, 0]
  | some .jnull => [0, 0, 0]
  | some (.arr xs) => xs.map (fun v => v.getD 0)

/-- Parse the destination field: absent, empty, unparsable or null
encodings become absent; a parsed array is kept as-is. -/
def parseDestField (fld : Option JEnc) : Option (List (Option ℝ)) :=
  match fld with
  | none => none
  | some .empty => none
  | some .malformed => none
  | some .jnull => none
  | some (.arr xs) => some xs

/-- Parse the target_planet_id field: only included when truthy, so a
present-but-empty string reads back as absent. -/
def parseTargetField (fld : Option String) : Option String :=
  match fld with
  | none => none
  | some p => if p = "" then none else some p

/-- getState: absent hash reads as absent; otherwise each field is
parsed with its defaulting rule. The fuel field, when present and
non-empty, is whatever parseFloat yields (NaN for a non-numeric
string); target_planet_id is included only when truthy. -/
def getState (st : Store) : Option ParsedState :=
  if st.isEmpty then none
  else
    some
      { position := parseVecField st.position
        velocity := parseVecField st.velocity
        destination := parseDestField st.destination
        fuel := getCurrentFuel st
        target_planet_id := parseTargetField st.target_planet_id
        isMoving := st.isMoving = some "true" }

/-- Partial update passed to updateState: `none` means the field is not
supplied. For the destination, `some none` is an explicit null (stored
as the JSON string for null, because the array-field branch runs before
the null branch). -/
structure StateUpdate where
  position : Option (List ℝ) := none
  velocity : Option (List ℝ) := none
  destination : Option (Option (List ℝ)) := none
  fuel : Option JNum := none
  isMoving : Option Bool := none
  target_planet_id : Option String := none

/-- updateState: merge the supplied fields into the hash, serializing
the three array fields with JSON.stringify (this branch runs first, so
a null destination is stored as the string "null", not the empty
string), numbers via toString and the isMoving boolean via
JSON.stringify, and refresh the timestamp. -/
def Store.updateState (st : Store) (u : StateUpdate) (now : ℕ) : Store :=
  { st with
    position :=
      match u.position with
      | none => st.position
      | some p => some (JEnc.arr (p.map some))
    velocity :=
      match u.velocity with
      | none => st.velocity
      | some v => some (JEnc.arr (v.map some))
    destination :=
      match u.destination with
      | none => st.destination
      | some none => some JEnc.jnull
      | some (some d) => some (JEnc.arr (d.map some))
    fuel :=
      match u.fuel with
      | none => st.fuel
      | some f => some (encodeJNum f)
    isMoving :=
      match u.isMoving with
      | none => st.isMoving
      | some b => some (if b then "true" else "false")
    target_planet_id :=
      match u.target_planet_id with
      | none => st.target_planet_id
      | some p => some p
    timestamp := some now }

/-- notifyArrival: suppressed while the re-entrancy flag is set;
otherwise set the flag, publish the arrival event with the current
fuel, and persist the arrived snapshot through updateState. -/
def notifyArrival (s : SimState) (position : Vector3) (now : ℕ) : SimState :=
  if s.isNotifyingArrival then s
  else
    let s1 := { s with isNotifyingArrival := true }
    let positionArray := [position.x, position.y, position.z]
    let currentFuel := getCurrentFuel s1.store
    let s2 := { s1 with
      events := s1.events ++ [Event.arrival positionArray currentFuel now] }
    { s2 with
      store := s2.store.updateState
        { position := some positionArray
          velocity := some [0, 0, 0]
          destination := some none
          isMoving := some false
          fuel := some currentFuel } now }

/-- Expiry of the 1000 ms cool-down window: the deferred reset of the
arrival-notification flag scheduled by notifyArrival. -/
def coolDownExpire (s : SimState) : SimState :=
  { s with isNotifyingArrival := false }

/-- updatePosition: one tick of the simulation loop. -/
noncomputable def updatePosition (s : SimState) (now : ℕ) : SimState :=
  match s.destination with
  | none => s
  | some dest =>
    if s.isRunning = false then s
    else
      let direction := normalizeVector
        ⟨dest.x - s.currentPosition.x, dest.y - s.currentPosition.y,
          dest.z - s.currentPosition.z⟩
      let distance := calculateDistance s.currentPosition dest
      let deltaTime := UPDATE_INTERVAL / 1000
      let moveDistance := MOVEMENT_SPEED * deltaTime
      let currentFuel := getCurrentFuel s.store
      let fuelConsumed := moveDistance * FUEL_CONSUMPTION_RATE
      if JNum.jsLe currentFuel 0 then
        stopInterpolation { s with destination := none } now
      else if JNum.jsLe (currentFuel.sub (.num fuelConsumed)) 0 then
        let s1 := updateFuel s (.num 0)
        let possibleDistance := currentFuel.getNum / FUEL_CONSUMPTION_RATE
        let s2 := { s1 with
          currentPosition :=
            ⟨s1.currentPosition.x + direction.x * possibleDistance,
              s1.currentPosition.y + direction.y * possibleDistance,
              s1.currentPosition.z + direction.z * possibleDistance⟩ }
        let s3 := updateRedisPosition s2 now
        let s4 := { s3 with
          events := s3.events ++ [Event.fuel_depleted
            [s3.currentPosition.x, s3.currentPosition.y,
              s3.currentPosition.z] now] }
        let s5 := { s4 with destination := none }
        stopInterpolation s5 now
      else
        let s1 := updateFuel s ((currentFuel.sub (.num fuelConsumed)).max0)
        if distance ≤ ARRIVAL_THRESHOLD then
          let s2 := { s1 with currentPosition := ⟨dest.x, dest.y, dest.z⟩ }
          let arrivalPosition := s2.currentPosition
          let s3 := stopInterpolation s2 now
          let s4 := { s3 with destination := none }
          let s5 := { s4 with
            store := { s4.store with destination := some JEnc.empty } }
          notifyArrival s5 arrivalPosition now
        else
          let movementThisFrame := min moveDistance distance
          let s2 := { s1 with
            currentPosition :=
              ⟨s1.currentPosition.x + direction.x * movementThisFrame,
                s1.currentPosition.y + direction.y * movementThisFrame,
                s1.currentPosition.z + direction.z * movementThisFrame⟩ }
          updateRedisPosition s2 now

/-- setDestination: set the in-memory destination, persist it together
with isMoving true and the current fuel (no timestamp refresh in this
direct write), start the loop, republish the move_to command, and
report success. -/
def setDestination (s : SimState) (d : Vector3) : SimState × Bool :=
  let s1 := { s with destination := some d }
  let currentFuel := getCurrentFuel s1.store
  let s2 := { s1 with
    store := { s1.store with
      destination := some (JEnc.arr [some d.x, some d.y, some d.z])
      isMoving := some "true"
      fuel := some (encodeJNum currentFuel) } }
  let s3 := startInterpolation s2
  ({ s3 with cmds := s3.cmds ++ [[d.x, d.y, d.z]] }, true)

/-- Subscriber handling of a well-formed move_to command: set the
destination, start the loop only if it is not already running. -/
def handleMoveTo (s : SimState) (d : Vector3) : SimState :=
  let s1 := { s with destination := some d }
  if s1.isRunning = false then startInterpolation s1 else s1

/-- Subscriber handling of a stop command: clear the destination and
stop the loop. -/
noncomputable def handleStop (s : SimState) (now : ℕ) : SimState :=
  stopInterpolation { s with destination := none } now

/-- The state produced by initialize when no persisted record exists:
fresh in-memory fields, the default record written through updateState,
then the position snapshot written back. -/
noncomputable def initialState (now : ℕ) : SimState :=
  let s0 : SimState :=
    { currentPosition := ⟨0, 0, 0⟩
      destination := none
      isRunning := false
      isNotifyingArrival := false
      store := emptyStore
      events := []
      cmds := [] }
  let s1 := { s0 with
    store := s0.store.updateState
      { position := some [0, 0, 0]
        velocity := some [0, 0, 0]
        fuel := some (.num 100) } now }
  updateRedisPosition s1 now

/-- One externally triggered transition of the process: a tick, a
Control API setDestination, a command-channel move_to or stop, or the
expiry of the arrival cool-down. -/
inductive Step : SimState → SimState → Prop
  | tick (s : SimState) (now : ℕ) : Step s (updatePosition s now)
  | setDest (s : SimState) (d : Vector3) : Step s (setDestination s d).1
  | moveTo (s : SimState) (d : Vector3) : Step s (handleMoveTo s d)
  | stopCmd (s : SimState) (now : ℕ) : Step s (handleStop s now)
  | cool (s : SimState) : Step s (coolDownExpire s)

/-- Run one tick per listed timestamp, in order. -/
noncomputable def iterTicks (times : List ℕ) (s : SimState) : SimState :=
  times.foldl (fun t now => updatePosition t now) s

/-- Candidate travel distance per tick. -/
noncomputable def movePerTick : ℝ := MOVEMENT_SPEED * (UPDATE_INTERVAL / 1000)

/-- Fuel drawn by a full tick's movement. -/
noncomputable def fuelPerTick : ℝ := movePerTick * FUEL_CONSUMPTION_RATE

/-! Basic lemmas about vectors and the store. -/

theorem normalizeVector_eq (v : Vector3) :
    normalizeVector v =
      if vlen v = 0 then ⟨0, 0, 0⟩
      else ⟨v.x / vlen v, v.y / vlen v, v.z / vlen v⟩ := rfl

theorem vlen_nonneg (v : Vector3) : 0 ≤ vlen v := Real.sqrt_nonneg _

theorem vlen_mul_self (v : Vector3) :
    vlen v * vlen v = v.x * v.x + v.y * v.y + v.z * v.z :=
  Real.mul_self_sqrt
    (by nlinarith [mul_self_nonneg v.x, mul_self_nonneg v.y,
      mul_self_nonneg v.z])

theorem vlen_smul (c : ℝ) (v : Vector3) : vlen (c • v) = |c| * vlen v := by
  unfold vlen
  have h : (c • v).x * (c • v).x + (c • v).y * (c • v).y +
      (c • v).z * (c • v).z = c ^ 2 * (v.x * v.x + v.y * v.y + v.z * v.z) := by
    simp only [Vector3.smul_x, Vector3.smul_y, Vector3.smul_z]; ring
  rw [h, Real.sqrt_mul (sq_nonneg c), Real.sqrt_sq_eq_abs]

theorem vlen_normalize (v : Vector3) (h : vlen v ≠ 0) :
    vlen (normalizeVector v) = 1 := by
  rw [normalizeVector_eq, if_neg h]
  have hinv : (⟨v.x / vlen v, v.y / vlen v, v.z / vlen v⟩ : Vector3) =
      (vlen v)⁻¹ • v := by
    apply Vector3.ext_comp <;> simp [div_eq_inv_mul]
  rw [hinv, vlen_smul, abs_inv, abs_of_nonneg (vlen_nonneg v),
    inv_mul_cancel₀ h]

theorem normalize_unit (v : Vector3) (h : vlen v = 1) :
    normalizeVector v = v := by
  rw [normalizeVector_eq, if_neg (by rw [h]; norm_num), h]
  apply Vector3.ext_comp <;> simp

theorem self_eq_vlen_smul_normalize (v : Vector3) (h : vlen v ≠ 0) :
    v = vlen v • normalizeVector v := by
  rw [normalizeVector_eq, if_neg h]
  apply Vector3.ext_comp <;>
    simp only [Vector3.smul_x, Vector3.smul_y, Vector3.smul_z] <;>
    field_simp

theorem normalize_smul_pos (c : ℝ) (v : Vector3) (hc : 0 < c) :
    normalizeVector (c • v) = normalizeVector v := by
  rw [normalizeVector_eq, normalizeVector_eq, vlen_smul,
    abs_of_pos hc]
  rcases eq_or_ne (vlen v) 0 with h0 | h0
  · rw [h0, mul_zero, if_pos rfl, if_pos rfl]
  · rw [if_neg (by exact mul_ne_zero (ne_of_gt hc) h0), if_neg h0]
    apply Vector3.ext_comp <;>
      simp only [Vector3.smul_x, Vector3.smul_y, Vector3.smul_z] <;>
      rw [mul_div_mul_left _ _ (ne_of_gt hc)]

theorem calculateDistance_eq_vlen (a b : Vector3) :
    calculateDistance a b = vlen (b - a) := by
  unfold calculateDistance vlen
  simp only [Vector3.sub_x, Vector3.sub_y, Vector3.sub_z]
  ring_nf

theorem getCurrentFuel_of_encoded (st : Store) (j : JNum)
    (h : st.fuel = some (encodeJNum j)) : getCurrentFuel st = j := by
  unfold getCurrentFuel
  rw [h]
  cases j <;> rfl

theorem getCurrentFuel_updateRedisPosition (s : SimState) (now : ℕ) :
    getCurrentFuel (updateRedisPosition s now).store = getCurrentFuel s.store :=
  getCurrentFuel_of_encoded _ _ rfl

theorem getCurrentFuel_stopInterpolation (s : SimState) (now : ℕ) :
    getCurrentFuel (stopInterpolation s now).store = getCurrentFuel s.store := by
  unfold stopInterpolation
  rcases h : s.isRunning with _ | _
  · rfl
  · exact getCurrentFuel_of_encoded _ _ rfl

theorem getCurrentFuel_updateFuel (s : SimState) (j : JNum) :
    getCurrentFuel (updateFuel s j).store = j :=
  getCurrentFuel_of_encoded _ _ rfl

theorem getCurrentFuel_updateState_self (st : Store) (u : StateUpdate)
    (now : ℕ) (h : u.fuel = some (getCurrentFuel st)) :
    getCurrentFuel (st.updateState u now) = getCurrentFuel st := by
  apply getCurrentFuel_of_encoded
  simp [Store.updateState, h]

theorem events_updateRedisPosition (s : SimState) (now : ℕ) :
    (updateRedisPosition s now).events = s.events := rfl

@[simp] theorem updateRedisPosition_currentPosition (s : SimState) (now : ℕ) :
    (updateRedisPosition s now).currentPosition = s.currentPosition := rfl

@[simp] theorem updateRedisPosition_destination (s : SimState) (now : ℕ) :
    (updateRedisPosition s now).destination = s.destination := rfl

@[simp] theorem updateRedisPosition_isRunning (s : SimState) (now : ℕ) :
    (updateRedisPosition s now).isRunning = s.isRunning := rfl

@[simp] theorem updateRedisPosition_isNotifyingArrival (s : SimState)
    (now : ℕ) :
    (updateRedisPosition s now).isNotifyingArrival = s.isNotifyingArrival :=
  rfl

@[simp] theorem updateRedisPosition_events (s : SimState) (now : ℕ) :
    (updateRedisPosition s now).events = s.events := rfl

@[simp] theorem updateRedisPosition_cmds (s : SimState) (now : ℕ) :
    (updateRedisPosition s now).cmds = s.cmds := rfl

@[simp] theorem updateRedisPosition_store_fuel (s : SimState) (now : ℕ) :
    (updateRedisPosition s now).store.fuel =
      some (encodeJNum (getCurrentFuel s.store)) := rfl

@[simp] theorem updateRedisPosition_store_timestamp (s : SimState) (now : ℕ) :
    (updateRedisPosition s now).store.timestamp = some now := rfl

@[simp] theorem updateRedisPosition_store_position (s : SimState) (now : ℕ) :
    (updateRedisPosition s now).store.position =
      some (JEnc.arr [some s.currentPosition.x, some s.currentPosition.y,
        some s.currentPosition.z]) := rfl

@[simp] theorem updateRedisPosition_store_isMoving (s : SimState) (now : ℕ) :
    (updateRedisPosition s now).store.isMoving =
      some (if s.isRunning then "true" else "false") := rfl

@[simp] theorem updateRedisPosition_store_target (s : SimState) (now : ℕ) :
    (updateRedisPosition s now).store.target_planet_id =
      s.store.target_planet_id := rfl

theorem updateRedisPosition_store_destination_none (s : SimState) (now : ℕ)
    (h : s.destination = none) :
    (updateRedisPosition s now).store.destination = some JEnc.empty := by
  unfold updateRedisPosition
  simp [h]

theorem updateRedisPosition_store_destination_some (s : SimState) (now : ℕ)
    (d : Vector3) (h : s.destination = some d) :
    (updateRedisPosition s now).store.destination =
      some (JEnc.arr [some d.x, some d.y, some d.z]) := by
  unfold updateRedisPosition
  simp [h]

@[simp] theorem stopInterpolation_currentPosition (s : SimState) (now : ℕ) :
    (stopInterpolation s now).currentPosition = s.currentPosition := by
  unfold stopInterpolation
  rcases h : s.isRunning with _ | _ <;> rfl

@[simp] theorem stopInterpolation_destination (s : SimState) (now : ℕ) :
    (stopInterpolation s now).destination = s.destination := by
  unfold stopInterpolation
  rcases h : s.isRunning with _ | _ <;> rfl

@[simp] theorem stopInterpolation_isRunning (s : SimState) (now : ℕ) :
    (stopInterpolation s now).isRunning = false := by
  unfold stopInterpolation
  rcases h : s.isRunning with _ | _
  · exact h
  · rfl

@[simp] theorem stopInterpolation_isNotifyingArrival (s : SimState)
    (now : ℕ) :
    (stopInterpolation s now).isNotifyingArrival = s.isNotifyingArrival := by
  unfold stopInterpolation
  rcases h : s.isRunning with _ | _ <;> rfl

@[simp] theorem stopInterpolation_events (s : SimState) (now : ℕ) :
    (stopInterpolation s now).events = s.events := by
  unfold stopInterpolation
  rcases h : s.isRunning with _ | _ <;> rfl

@[simp] theorem stopInterpolation_cmds (s : SimState) (now : ℕ) :
    (stopInterpolation s now).cmds = s.cmds := by
  unfold stopInterpolation
  rcases h : s.isRunning with _ | _ <;> rfl

@[simp] theorem stopInterpolation_fuel (s : SimState) (now : ℕ) :
    getCurrentFuel (stopInterpolation s now).store = getCurrentFuel s.store :=
  getCurrentFuel_stopInterpolation s now

@[simp] theorem stopInterpolation_store_fuel (s : SimState) (now : ℕ) :
    (stopInterpolation s now).store.fuel =
      if s.isRunning = true then some (encodeJNum (getCurrentFuel s.store))
      else s.store.fuel := by
  unfold stopInterpolation
  rcases h : s.isRunning with _ | _ <;> rfl

@[simp] theorem stopInterpolation_store_isMoving (s : SimState) (now : ℕ) :
    (stopInterpolation s now).store.isMoving =
      if s.isRunning = true then some "false" else s.store.isMoving := by
  unfold stopInterpolation
  rcases h : s.isRunning with _ | _ <;> rfl

@[simp] theorem stopInterpolation_store_timestamp (s : SimState) (now : ℕ) :
    (stopInterpolation s now).store.timestamp =
      if s.isRunning = true then some now else s.store.timestamp := by
  unfold stopInterpolation
  rcases h : s.isRunning with _ | _ <;> rfl

@[simp] theorem stopInterpolation_store_position (s : SimState) (now : ℕ) :
    (stopInterpolation s now).store.position =
      if s.isRunning = true then
        some (JEnc.arr [some s.currentPosition.x, some s.currentPosition.y,
          some s.currentPosition.z])
      else s.store.position := by
  unfold stopInterpolation
  rcases h : s.isRunning with _ | _ <;> rfl

@[simp] theorem stopInterpolation_store_target (s : SimState) (now : ℕ) :
    (stopInterpolation s now).store.target_planet_id =
      s.store.target_planet_id := by
  unfold stopInterpolation
  rcases h : s.isRunning with _ | _ <;> rfl

@[simp] theorem startInterpolation_isRunning (s : SimState) :
    (startInterpolation s).isRunning = true := by
  unfold startInterpolation
  rcases h : s.isRunning with _ | _ <;> simp [h]

@[simp] theorem startInterpolation_currentPosition (s : SimState) :
    (startInterpolation s).currentPosition = s.currentPosition := by
  unfold startInterpolation
  rcases h : s.isRunning with _ | _ <;> simp [h]

@[simp] theorem startInterpolation_destination (s : SimState) :
    (startInterpolation s).destination = s.destination := by
  unfold startInterpolation
  rcases h : s.isRunning with _ | _ <;> simp [h]

@[simp] theorem startInterpolation_store (s : SimState) :
    (startInterpolation s).store = s.store := by
  unfold startInterpolation
  rcases h : s.isRunning with _ | _ <;> simp [h]

@[simp] theorem startInterpolation_events (s : SimState) :
    (startInterpolation s).events = s.events := by
  unfold startInterpolation
  rcases h : s.isRunning with _ | _ <;> simp [h]

@[simp] theorem startInterpolation_cmds (s : SimState) :
    (startInterpolation s).cmds = s.cmds := by
  unfold startInterpolation
  rcases h : s.isRunning with _ | _ <;> simp [h]

theorem events_stopInterpolation (s : SimState) (now : ℕ) :
    (stopInterpolation s now).events = s.events := by
  unfold stopInterpolation
  rcases h : s.isRunning with _ | _
  · rfl
  · rfl

theorem stopInterpolation_of_stopped (s : SimState) (now : ℕ)
    (h : s.isRunning = false) : stopInterpolation s now = s := by
  unfold stopInterpolation
  rw [if_pos h]

theorem notifyArrival_of_flagged (s : SimState) (p : Vector3) (now : ℕ)
    (h : s.isNotifyingArrival = true) : notifyArrival s p now = s := by
  unfold notifyArrival
  simp [h]

@[simp] theorem getCurrentFuel_notifyArrival (s : SimState) (p : Vector3)
    (now : ℕ) :
    getCurrentFuel (notifyArrival s p now).store = getCurrentFuel s.store := by
  unfold notifyArrival
  rcases h : s.isNotifyingArrival with _ | _
  · simp only [h, Bool.false_eq_true, if_false]
    exact getCurrentFuel_updateState_self _ _ _ rfl
  · simp [h]

theorem setDestination_fst_store (s : SimState) (d : Vector3) :
    (setDestination s d).1.store =
      { s.store with
        destination := some (JEnc.arr [some d.x, some d.y, some d.z])
        isMoving := some "true"
        fuel := some (encodeJNum (getCurrentFuel s.store)) } := by
  unfold setDestination
  simp

@[simp] theorem getCurrentFuel_setDestination (s : SimState) (d : Vector3) :
    getCurrentFuel (setDestination s d).1.store = getCurrentFuel s.store := by
  rw [setDestination_fst_store]
  exact getCurrentFuel_of_encoded _ _ rfl

@[simp] theorem setDestination_fst_destination (s : SimState) (d : Vector3) :
    (setDestination s d).1.destination = some d := by
  unfold setDestination
  simp

@[simp] theorem setDestination_fst_isRunning (s : SimState) (d : Vector3) :
    (setDestination s d).1.isRunning = true := by
  unfold setDestination
  simp

@[simp] theorem setDestination_fst_currentPosition (s : SimState)
    (d : Vector3) :
    (setDestination s d).1.currentPosition = s.currentPosition := by
  unfold setDestination
  simp

@[simp] theorem setDestination_fst_events (s : SimState) (d : Vector3) :
    (setDestination s d).1.events = s.events := by
  unfold setDestination
  simp

@[simp] theorem setDestination_snd (s : SimState) (d : Vector3) :
    (setDestination s d).2 = true := rfl

@[simp] theorem handleMoveTo_store (s : SimState) (d : Vector3) :
    (handleMoveTo s d).store = s.store := by
  unfold handleMoveTo
  rcases h : s.isRunning with _ | _ <;> simp [h]

@[simp] theorem coolDownExpire_store (s : SimState) :
    (coolDownExpire s).store = s.store := rfl

theorem Vector3.sub_def (a b : Vector3) :
    a - b = ⟨a.x - b.x, a.y - b.y, a.z - b.z⟩ := rfl

theorem updatePosition_of_no_destination (s : SimState) (now : ℕ)
    (h : s.destination = none) : updatePosition s now = s := by
  unfold updatePosition
  rw [h]

theorem destination_update_self (s : SimState) (h : s.destination = none) :
    { s with destination := none } = s := by
  cases s
  simp only at h
  simp [h]

/-! Claim theorems. -/

/-- Concrete state used to instantiate the depletion claims: at the
origin, heading for (3,4,0), running, with 0.005 fuel persisted. -/
def wDepleted : SimState :=
  { currentPosition := ⟨0, 0, 0⟩
    destination := some ⟨3, 4, 0⟩
    isRunning := true
    isNotifyingArrival := false
    store := ⟨none, none, none, some (.numeric 0.005), none, none, none⟩
    events := []
    cmds := [] }

/-- C2. Depletion postcondition: on a tick where fuel is strictly
positive but the candidate draw would take it to or below zero, the
ship advances exactly fuel ÷ consumption-rate units along the direction
vector (a distance ≤ the candidate travel distance), fuel afterward
reads exactly 0, a FuelDepleted event is published, the destination is
cleared and the loop is stopped (Idle). -/
theorem depletion_postcondition (s : SimState) (dest : Vector3) (f : ℝ)
    (now : ℕ) (hd : s.destination = some dest) (hrun : s.isRunning = true)
    (hf : getCurrentFuel s.store = .num f)
    (hpos : ¬ f ≤ 0) (hdep : f - fuelPerTick ≤ 0) :
    (updatePosition s now).currentPosition =
      s.currentPosition + (f / FUEL_CONSUMPTION_RATE) • normalizeVector
        ⟨dest.x - s.currentPosition.x, dest.y - s.currentPosition.y,
          dest.z - s.currentPosition.z⟩ ∧
    f / FUEL_CONSUMPTION_RATE ≤ movePerTick ∧
    getCurrentFuel (updatePosition s now).store = .num 0 ∧
    Event.fuel_depleted
      [(updatePosition s now).currentPosition.x,
        (updatePosition s now).currentPosition.y,
        (updatePosition s now).currentPosition.z] now ∈
      (updatePosition s now).events ∧
    (updatePosition s now).destination = none ∧
    (updatePosition s now).isRunning = false := by
  have hdep' : f - MOVEMENT_SPEED * (UPDATE_INTERVAL / 1000) *
      FUEL_CONSUMPTION_RATE ≤ 0 := by
    rw [fuelPerTick, movePerTick] at hdep; exact hdep
  have hbound : f / FUEL_CONSUMPTION_RATE ≤ movePerTick := by
    have hrate : (0 : ℝ) < FUEL_CONSUMPTION_RATE := by
      norm_num [FUEL_CONSUMPTION_RATE]
    rw [div_le_iff₀ hrate]
    have h2 := hdep
    rw [fuelPerTick] at h2
    linarith
  simp only [updatePosition, hd, hrun, hf, JNum.sub, JNum.jsLe, hpos, hdep',
    if_true, if_false, ite_true, ite_false, reduceIte, not_false_eq_true,
    updateFuel]
  refine ⟨?_, hbound, ?_, ?_, ?_, ?_⟩
  · simp only [stopInterpolation_currentPosition,
      updateRedisPosition_currentPosition]
    apply Vector3.ext_comp <;> simp [JNum.getNum] <;> ring
  · simp [hdep', getCurrentFuel, encodeJNum]
  · simp [hdep']
  · simp [hdep']
  · simp [hdep']

/-- Witness for C2 at the concrete state wDepleted. -/
theorem depletion_postcondition_witness :
    ¬ (0.005 : ℝ) ≤ 0 ∧
    (updatePosition wDepleted 7).destination = none :=
  ⟨by norm_num,
    (depletion_postcondition wDepleted ⟨3, 4, 0⟩ 0.005 7 rfl rfl rfl
      (by norm_num)
      (by norm_num [fuelPerTick, movePerTick, MOVEMENT_SPEED,
        UPDATE_INTERVAL, FUEL_CONSUMPTION_RATE])).2.2.2.2.1⟩

/-- C10. On a depletion tick the core publishes a FuelUpdate event with
fuel 0 (from the fuel write that zeroes the tank) followed by the
FuelDepleted event, in that order, rather than FuelDepleted alone. -/
theorem depletion_two_events (s : SimState) (dest : Vector3) (f : ℝ)
    (now : ℕ) (hd : s.destination = some dest) (hrun : s.isRunning = true)
    (hf : getCurrentFuel s.store = .num f)
    (hpos : ¬ f ≤ 0) (hdep : f - fuelPerTick ≤ 0) :
    (updatePosition s now).events =
      s.events ++ [Event.fuel_update (.num 0),
        Event.fuel_depleted
          [(updatePosition s now).currentPosition.x,
            (updatePosition s now).currentPosition.y,
            (updatePosition s now).currentPosition.z] now] := by
  have hdep' : f - MOVEMENT_SPEED * (UPDATE_INTERVAL / 1000) *
      FUEL_CONSUMPTION_RATE ≤ 0 := by
    rw [fuelPerTick, movePerTick] at hdep; exact hdep
  simp only [updatePosition, hd, hrun, hf, JNum.sub, JNum.jsLe, hpos, hdep',
    if_true, if_false, ite_true, ite_false, reduceIte, not_false_eq_true,
    updateFuel]
  simp [hdep']

/-- Witness for C10 at a concrete depleting state. -/
theorem depletion_two_events_witness :
    ¬ (0.005 : ℝ) ≤ 0 ∧
    (updatePosition
        { currentPosition := ⟨0, 0, 0⟩
          destination := some ⟨3, 4, 0⟩
          isRunning := true
          isNotifyingArrival := false
          store := ⟨none, none, none, some (.numeric 0.005), none, none, none⟩
          events := [Event.fuel_update (.num 0.005)]
          cmds := [] } 7).events =
      [Event.fuel_update (.num 0.005)] ++ [Event.fuel_update (.num 0),
        Event.fuel_depleted
          [(updatePosition
              { currentPosition := ⟨0, 0, 0⟩
                destination := some ⟨3, 4, 0⟩
                isRunning := true
                isNotifyingArrival := false
                store :=
                  ⟨none, none, none, some (.numeric 0.005), none, none, none⟩
                events := [Event.fuel_update (.num 0.005)]
                cmds := [] } 7).currentPosition.x,
            (updatePosition
              { currentPosition := ⟨0, 0, 0⟩
                destination := some ⟨3, 4, 0⟩
                isRunning := true
                isNotifyingArrival := false
                store :=
                  ⟨none, none, none, some (.numeric 0.005), none, none, none⟩
                events := [Event.fuel_update (.num 0.005)]
                cmds := [] } 7).currentPosition.y,
            (updatePosition
              { currentPosition := ⟨0, 0, 0⟩
                destination := some ⟨3, 4, 0⟩
                isRunning := true
                isNotifyingArrival := false
                store :=
                  ⟨none, none, none, some (.numeric 0.005), none, none, none⟩
                events := [Event.fuel_update (.num 0.005)]
                cmds := [] } 7).currentPosition.z] 7] :=
  ⟨by norm_num,
    depletion_two_events _ ⟨3, 4, 0⟩ 0.005 7 rfl rfl rfl
      (by norm_num)
      (by norm_num [fuelPerTick, movePerTick, MOVEMENT_SPEED,
        UPDATE_INTERVAL, FUEL_CONSUMPTION_RATE])⟩

/-- C9. setDestination succeeds regardless of fuel: with fuel at or
below 0 it still returns true, persists isMoving true and starts the
loop; the first subsequent tick then takes the fuel ≤ 0 branch,
clearing the destination and stopping the loop without moving the ship
and without publishing any event. -/
theorem setDestination_with_empty_tank (s : SimState) (d : Vector3)
    (now : ℕ) (f : ℝ) (hf : getCurrentFuel s.store = .num f)
    (hle : f ≤ 0) :
    (setDestination s d).2 = true ∧
    (setDestination s d).1.isRunning = true ∧
    (setDestination s d).1.store.isMoving = some "true" ∧
    (updatePosition (setDestination s d).1 now).currentPosition =
      s.currentPosition ∧
    (updatePosition (setDestination s d).1 now).destination = none ∧
    (updatePosition (setDestination s d).1 now).isRunning = false ∧
    (updatePosition (setDestination s d).1 now).events = s.events := by
  refine ⟨rfl, by simp, ?_, ?_, ?_, ?_, ?_⟩
  · rw [setDestination_fst_store]
  all_goals
    simp only [updatePosition, setDestination_fst_destination,
      setDestination_fst_isRunning, getCurrentFuel_setDestination, hf,
      JNum.jsLe, hle, if_true, ite_true, reduceIte]
    simp

/-- Concrete stranded state used to instantiate C9. -/
def wEmptyTank : SimState :=
  { currentPosition := ⟨1, 1, 1⟩
    destination := none
    isRunning := false
    isNotifyingArrival := false
    store := ⟨none, none, none, some (.numeric 0), none, none, none⟩
    events := []
    cmds := [] }

/-- Witness for C9 at a concrete empty-tank state. -/
theorem setDestination_with_empty_tank_witness :
    (0 : ℝ) ≤ 0 ∧
    (updatePosition (setDestination wEmptyTank ⟨9, 0, 0⟩).1 3).events = [] :=
  ⟨le_refl 0,
    (setDestination_with_empty_tank wEmptyTank ⟨9, 0, 0⟩ 3 0 rfl
      (le_refl 0)).2.2.2.2.2.2⟩

/-- C6. Round trip: a successful setDestination(d) followed immediately
by getState (no intervening tick) reads back destination = d (as the
3-element array), isMoving = true, and a fuel level equal to the fuel
read before the call; setDestination itself reports success and leaves
the in-memory state Transiting towards d. -/
theorem setDestination_getState_roundtrip (s : SimState) (d : Vector3) :
    (setDestination s d).2 = true ∧
    (getState (setDestination s d).1.store).map ParsedState.destination =
      some (some [some d.x, some d.y, some d.z]) ∧
    (getState (setDestination s d).1.store).map ParsedState.isMoving =
      some true ∧
    (getState (setDestination s d).1.store).map ParsedState.fuel =
      some (getCurrentFuel s.store) ∧
    (setDestination s d).1.destination = some d ∧
    (setDestination s d).1.isRunning = true := by
  refine ⟨rfl, ?_, ?_, ?_, by simp, by simp⟩
  all_goals rw [setDestination_fst_store]
  all_goals simp [getState, Store.isEmpty, parseDestField]
  all_goals exact getCurrentFuel_of_encoded _ _ rfl

/-- Witness for C6 at a concrete idle state. -/
theorem setDestination_getState_roundtrip_witness :
    (getState (setDestination wEmptyTank ⟨4, 5, 6⟩).1.store).map
      ParsedState.isMoving = some true :=
  (setDestination_getState_roundtrip wEmptyTank ⟨4, 5, 6⟩).2.2.1

/-- Concrete running state used to instantiate the stop claims. -/
def wRunning : SimState :=
  { currentPosition := ⟨2, 0, 0⟩
    destination := some ⟨50, 0, 0⟩
    isRunning := true
    isNotifyingArrival := false
    store := ⟨none, none, none, some (.numeric 80), some "true", none, none⟩
    events := []
    cmds := [] }

/-- Concrete stopped state used to instantiate the stop claims. -/
def wStopped : SimState :=
  { currentPosition := ⟨2, 0, 0⟩
    destination := none
    isRunning := false
    isNotifyingArrival := false
    store := ⟨none, none, none, none, some "false", none, none⟩
    events := []
    cmds := [] }

/-- C7. Stop semantics and idempotence: a stop command clears the
destination, persists isMoving = "false" (when the loop was running),
halts the loop so a further tick is a no-op, and is idempotent; stopping
an already-stopped loop is a no-op that leaves the state unchanged. -/
theorem stop_semantics (s : SimState) (now now2 : ℕ) :
    (handleStop s now).destination = none ∧
    (s.isRunning = true → (handleStop s now).store.isMoving = some "false") ∧
    (handleStop s now).isRunning = false ∧
    updatePosition (handleStop s now) now2 = handleStop s now ∧
    handleStop (handleStop s now) now2 = handleStop s now ∧
    (s.isRunning = false → stopInterpolation s now = s) := by
  have hXd : (handleStop s now).destination = none := by simp [handleStop]
  have hXr : (handleStop s now).isRunning = false := by simp [handleStop]
  refine ⟨hXd, ?_, hXr, ?_, ?_, fun h => stopInterpolation_of_stopped s now h⟩
  · intro h
    simp [handleStop, h]
  · exact updatePosition_of_no_destination _ _ hXd
  · show stopInterpolation
      { handleStop s now with destination := none } now2 = handleStop s now
    rw [destination_update_self _ hXd, stopInterpolation_of_stopped _ _ hXr]

/-- Witness for C7: stop of a running loop persists isMoving false, and
stopping the already-stopped state is the identity. -/
theorem stop_semantics_witness :
    (handleStop wRunning 1).store.isMoving = some "false" ∧
    stopInterpolation wStopped 4 = wStopped :=
  ⟨(stop_semantics wRunning 1 2).2.1 rfl,
    (stop_semantics wStopped 4 5).2.2.2.2.2 rfl⟩

/-- C8 amended: an updateState write merges exactly the supplied fields
(an explicit null destination being stored as the JSON string for null,
since the array-serialization branch runs first), leaves every
unsupplied field unchanged, and always sets the timestamp field to the
clock at the write; updateRedisPosition's direct hSet also writes the
current clock into the timestamp with every snapshot, including the one
inside stopInterpolation, whose final isMoving override leaves the
timestamp as that snapshot wrote it; the remaining direct hSet writes —
setDestination's destination/isMoving/fuel write and updateFuel's fuel
write — leave the timestamp unchanged; and every timestamp a write
produces is the clock at the write, so the persisted timestamp is
non-decreasing whenever the clock is. -/
theorem updateState_merge_and_timestamp (st : Store) (u : StateUpdate)
    (now : ℕ) (s : SimState) (d : Vector3) :
    ((st.updateState u now).timestamp = some now) ∧
    (u.position = none → (st.updateState u now).position = st.position) ∧
    (∀ p, u.position = some p →
      (st.updateState u now).position = some (JEnc.arr (p.map some))) ∧
    (u.velocity = none → (st.updateState u now).velocity = st.velocity) ∧
    (∀ v, u.velocity = some v →
      (st.updateState u now).velocity = some (JEnc.arr (v.map some))) ∧
    (u.destination = none →
      (st.updateState u now).destination = st.destination) ∧
    (u.destination = some none →
      (st.updateState u now).destination = some JEnc.jnull) ∧
    (∀ dd, u.destination = some (some dd) →
      (st.updateState u now).destination = some (JEnc.arr (dd.map some))) ∧
    (u.fuel = none → (st.updateState u now).fuel = st.fuel) ∧
    (∀ j, u.fuel = some j →
      (st.updateState u now).fuel = some (encodeJNum j)) ∧
    (u.isMoving = none → (st.updateState u now).isMoving = st.isMoving) ∧
    (∀ b, u.isMoving = some b →
      (st.updateState u now).isMoving =
        some (if b then "true" else "false")) ∧
    (u.target_planet_id = none →
      (st.updateState u now).target_planet_id = st.target_planet_id) ∧
    (∀ pid, u.target_planet_id = some pid →
      (st.updateState u now).target_planet_id = some pid) ∧
    ((updateRedisPosition s now).store.timestamp = some now) ∧
    (∀ j, (updateFuel s j).store.timestamp = s.store.timestamp) ∧
    ((stopInterpolation s now).store.timestamp =
      if s.isRunning = true then some now else s.store.timestamp) ∧
    (∀ t, st.timestamp = some t → t ≤ now →
      ∃ t2, (st.updateState u now).timestamp = some t2 ∧ t ≤ t2) ∧
    ((setDestination s d).1.store.timestamp = s.store.timestamp) := by
  repeat' constructor
  all_goals
    first
    | (intro t h1 h2; exact ⟨now, by simp [Store.updateState], h2⟩)
    | (intro j; rfl)
    | (intro h; simp [Store.updateState, h])
    | (intro a h; simp [Store.updateState, h])
    | simp [Store.updateState]
    | rw [setDestination_fst_store]

/-- Witness for C8's amended statement at concrete inputs: a merge that
refreshes the timestamp, leaves the unsupplied position absent, encodes
the supplied fuel, and stores an explicit null destination as the JSON
null encoding. -/
theorem updateState_merge_and_timestamp_witness :
    (emptyStore.updateState { fuel := some (.num 3) } 9).timestamp = some 9 ∧
    (emptyStore.updateState { fuel := some (.num 3) } 9).position = none ∧
    (emptyStore.updateState { fuel := some (.num 3) } 9).fuel =
      some (.numeric 3) ∧
    (emptyStore.updateState { destination := some none } 9).destination =
      some JEnc.jnull :=
  ⟨(updateState_merge_and_timestamp emptyStore { fuel := some (.num 3) } 9
      wStopped ⟨1, 2, 3⟩).1,
    (updateState_merge_and_timestamp emptyStore { fuel := some (.num 3) } 9
      wStopped ⟨1, 2, 3⟩).2.1 rfl,
    (updateState_merge_and_timestamp emptyStore { fuel := some (.num 3) } 9
      wStopped ⟨1, 2, 3⟩).2.2.2.2.2.2.2.2.2.1 (.num 3) rfl,
    (updateState_merge_and_timestamp emptyStore { destination := some none }
      9 wStopped ⟨1, 2, 3⟩).2.2.2.2.2.2.1 rfl⟩

/-- Concrete state with a stale persisted timestamp, used to refute the
claim that every write refreshes the timestamp. -/
def wStale : SimState :=
  { currentPosition := ⟨0, 0, 0⟩
    destination := none
    isRunning := false
    isNotifyingArrival := false
    store := ⟨none, none, some JEnc.empty, some (.numeric 40), some "false",
      some 5, none⟩
    events := []
    cmds := [] }

/-- Counterexample for C8 as stated: the direct hSet in setDestination
writes the destination field of the persisted record (changing it) yet
leaves the timestamp field at its old value 5, so not every write to
the persisted record refreshes the timestamp. -/
theorem setDestination_stale_timestamp :
    (setDestination wStale ⟨1, 2, 3⟩).1.store.destination =
      some (JEnc.arr [some 1, some 2, some 3]) ∧
    (setDestination wStale ⟨1, 2, 3⟩).1.store.destination ≠
      wStale.store.destination ∧
    (setDestination wStale ⟨1, 2, 3⟩).1.store.timestamp = some 5 := by
  refine ⟨?_, ?_, ?_⟩
  · rw [setDestination_fst_store]
  · rw [setDestination_fst_store]
    intro h
    exact JEnc.noConfusion (Option.some.inj h)
  · rw [setDestination_fst_store]
    rfl

/-- Store whose only populated field is a fuel string parseFloat cannot
read (e.g. "abc"): a malformed, non-empty fuel encoding. -/
def wBadFuel : Store := ⟨none, none, none, some .nonNumeric, none, none, none⟩

/-- Counterexample for C5 as stated: a persisted record whose fuel field
holds a malformed (non-empty, non-numeric) string is read back with
fuel = NaN — the raw parseFloat result — not the default 100 the claim
requires; the defaulting to 100 only covers a missing or empty fuel
field. -/
theorem getState_malformed_fuel_not_defaulted :
    (getState wBadFuel).map ParsedState.fuel = some JNum.nan ∧
    (getState wBadFuel).map ParsedState.fuel ≠ some (JNum.num 100) :=
  ⟨rfl, fun h => JNum.noConfusion (Option.some.inj h)⟩

/-- C5 amended: a read of a non-empty persisted record never fails and
substitutes defaults per field: position and velocity degrade to
[0,0,0] when missing, empty, unparsable or null; a missing, empty,
unparsable or null destination becomes absent; fuel defaults to 100
when missing or empty (a malformed non-empty fuel string instead parses
to NaN); isMoving is false unless the stored string is "true". -/
theorem getState_defaulting (st : Store) (hne : st.isEmpty = false)
    (hp : st.position = none ∨ st.position = some .empty ∨
      st.position = some .malformed ∨ st.position = some .jnull)
    (hv : st.velocity = none ∨ st.velocity = some .empty ∨
      st.velocity = some .malformed ∨ st.velocity = some .jnull)
    (hdst : st.destination = none ∨ st.destination = some .empty ∨
      st.destination = some .malformed ∨ st.destination = some .jnull)
    (hfuel : st.fuel = none ∨ st.fuel = some .empty)
    (him : st.isMoving ≠ some "true") :
    getState st = some
      { position := [0, 0, 0]
        velocity := [0, 0, 0]
        destination := none
        fuel := .num 100
        target_planet_id := parseTargetField st.target_planet_id
        isMoving := false } ∧
    ∀ st2 : Store, st2.isEmpty = false → (getState st2).isSome = true := by
  constructor
  · obtain hp | hp | hp | hp := hp <;> obtain hv | hv | hv | hv := hv <;>
      obtain hd | hd | hd | hd := hdst <;> obtain hf | hf := hfuel <;>
      simp [getState, hne, hp, hv, hd, hf, parseVecField, parseDestField,
        getCurrentFuel, him, decide_eq_false_iff_not]
  · intro st2 h2
    simp [getState, h2]

/-- Witness for C5's amended statement at a concrete sparse record. -/
theorem getState_defaulting_witness :
    getState ⟨some JEnc.malformed, none, some JEnc.empty, none,
        some "garbage", some 3, none⟩ = some
      { position := [0, 0, 0]
        velocity := [0, 0, 0]
        destination := none
        fuel := .num 100
        target_planet_id := none
        isMoving := false } :=
  (getState_defaulting
    ⟨some JEnc.malformed, none, some JEnc.empty, none, some "garbage",
      some 3, none⟩ rfl
    (Or.inr (Or.inr (Or.inl rfl))) (Or.inl rfl) (Or.inr (Or.inl rfl))
    (Or.inl rfl) (by simp)).1

/-- One tick never increases the fuel level: it either preserves it,
floors the deduction at zero, or zeroes it on depletion. -/
theorem tick_fuel (s : SimState) (now : ℕ) (f : ℝ)
    (hf : getCurrentFuel s.store = .num f) (h0 : 0 ≤ f) :
    ∃ g, getCurrentFuel (updatePosition s now).store = .num g ∧
      0 ≤ g ∧ g ≤ f := by
  rcases hd : s.destination with _ | dest
  · rw [updatePosition_of_no_destination s now hd]
    exact ⟨f, hf, h0, le_refl f⟩
  rcases hr : s.isRunning with _ | _
  · have hs : updatePosition s now = s := by
      unfold updatePosition
      rw [hd]
      simp [hr]
    rw [hs]
    exact ⟨f, hf, h0, le_refl f⟩
  have hc : (0 : ℝ) ≤ MOVEMENT_SPEED * (UPDATE_INTERVAL / 1000) *
      FUEL_CONSUMPTION_RATE := by
    norm_num [MOVEMENT_SPEED, UPDATE_INTERVAL, FUEL_CONSUMPTION_RATE]
  by_cases h1 : f ≤ 0
  · refine ⟨f, ?_, h0, le_refl f⟩
    simp only [updatePosition, hd, hr, hf, JNum.jsLe, JNum.sub, if_true,
      ite_true, reduceIte, h1, if_pos]
    simp [hf]
  by_cases h2 : f - MOVEMENT_SPEED * (UPDATE_INTERVAL / 1000) *
      FUEL_CONSUMPTION_RATE ≤ 0
  · refine ⟨0, ?_, le_refl 0, h0⟩
    simp only [updatePosition, hd, hr, hf, JNum.jsLe, JNum.sub, h1, h2,
      if_true, if_false, ite_true, ite_false, reduceIte, not_false_eq_true,
      updateFuel]
    simp [h2, getCurrentFuel, encodeJNum]
  · refine ⟨max 0 (f - MOVEMENT_SPEED * (UPDATE_INTERVAL / 1000) *
      FUEL_CONSUMPTION_RATE), ?_, le_max_left _ _,
      max_le h0 (by linarith)⟩
    simp only [updatePosition, hd, hr, hf, JNum.jsLe, JNum.sub, JNum.max0,
      h1, h2, if_true, if_false, ite_true, ite_false, reduceIte,
      not_false_eq_true, updateFuel]
    by_cases h3 : calculateDistance s.currentPosition dest ≤
        ARRIVAL_THRESHOLD
    · rw [if_neg (by simp : ¬ (true = false)), if_pos h3,
        getCurrentFuel_notifyArrival]
      exact getCurrentFuel_of_encoded _ _ rfl
    · rw [if_neg (by simp : ¬ (true = false)), if_neg h3]
      exact getCurrentFuel_of_encoded _ _ rfl

/-- Every process step keeps the fuel level a real number in [0, 100]. -/
theorem step_fuel (s s' : SimState) (hstep : Step s s') (f : ℝ)
    (hf : getCurrentFuel s.store = .num f) (h0 : 0 ≤ f) (h100 : f ≤ 100) :
    ∃ g, getCurrentFuel s'.store = .num g ∧ 0 ≤ g ∧ g ≤ 100 := by
  cases hstep with
  | tick now =>
    obtain ⟨g, hg, hg0, hgle⟩ := tick_fuel s now f hf h0
    exact ⟨g, hg, hg0, le_trans hgle h100⟩
  | setDest d =>
    exact ⟨f, by rw [getCurrentFuel_setDestination]; exact hf, h0, h100⟩
  | moveTo d =>
    exact ⟨f, by rw [handleMoveTo_store]; exact hf, h0, h100⟩
  | stopCmd now =>
    refine ⟨f, ?_, h0, h100⟩
    unfold handleStop
    rw [getCurrentFuel_stopInterpolation]
    exact hf
  | cool =>
    exact ⟨f, by rw [coolDownExpire_store]; exact hf, h0, h100⟩

/-- C1. Fuel invariant: in every state reachable from a fresh
initialization, the persisted fuel is a real number that is never
negative and never exceeds 100, and a tick from any such state can only
keep or lower it (the only fuel writes are the floored deduction and
the exact zero on depletion). -/
theorem fuel_invariant (t0 : ℕ) (s : SimState)
    (hreach : Relation.ReflTransGen Step (initialState t0) s) :
    ∃ f, getCurrentFuel s.store = .num f ∧ 0 ≤ f ∧ f ≤ 100 ∧
      ∀ now, ∃ g, getCurrentFuel (updatePosition s now).store = .num g ∧
        0 ≤ g ∧ g ≤ f := by
  induction hreach with
  | refl =>
    refine ⟨100, rfl, by norm_num, by norm_num, fun now => ?_⟩
    exact tick_fuel _ now 100 rfl (by norm_num)
  | tail hab hbc ih =>
    obtain ⟨f, hf, h0, h100, _⟩ := ih
    obtain ⟨g, hg, hg0, hg100⟩ := step_fuel _ _ hbc f hf h0 h100
    exact ⟨g, hg, hg0, hg100, fun now => tick_fuel _ now g hg hg0⟩

/-- Witness for C1 at the freshly initialized state itself. -/
theorem fuel_invariant_witness :
    ∃ f, getCurrentFuel (initialState 0).store = .num f ∧ 0 ≤ f ∧
      f ≤ 100 ∧
      ∀ now, ∃ g,
        getCurrentFuel (updatePosition (initialState 0) now).store =
          .num g ∧ 0 ≤ g ∧ g ≤ f :=
  fuel_invariant 0 (initialState 0) Relation.ReflTransGen.refl

@[simp] theorem notifyArrival_currentPosition (s : SimState) (p : Vector3)
    (now : ℕ) :
    (notifyArrival s p now).currentPosition = s.currentPosition := by
  unfold notifyArrival
  rcases h : s.isNotifyingArrival with _ | _ <;> simp [h]

@[simp] theorem notifyArrival_destination (s : SimState) (p : Vector3)
    (now : ℕ) :
    (notifyArrival s p now).destination = s.destination := by
  unfold notifyArrival
  rcases h : s.isNotifyingArrival with _ | _ <;> simp [h]

@[simp] theorem notifyArrival_isRunning (s : SimState) (p : Vector3)
    (now : ℕ) :
    (notifyArrival s p now).isRunning = s.isRunning := by
  unfold notifyArrival
  rcases h : s.isNotifyingArrival with _ | _ <;> simp [h]

theorem notifyArrival_flag (s : SimState) (p : Vector3) (now : ℕ)
    (h : s.isNotifyingArrival = false) :
    (notifyArrival s p now).isNotifyingArrival = true := by
  unfold notifyArrival
  simp [h]

theorem notifyArrival_events (s : SimState) (p : Vector3) (now : ℕ)
    (h : s.isNotifyingArrival = false) :
    (notifyArrival s p now).events = s.events ++
      [Event.arrival [p.x, p.y, p.z] (getCurrentFuel s.store) now] := by
  unfold notifyArrival
  simp [h]

@[simp] theorem countArrivals_append (a b : List Event) :
    countArrivals (a ++ b) = countArrivals a + countArrivals b :=
  List.countP_append _ _ _

@[simp] theorem countArrivals_nil : countArrivals [] = 0 := rfl

@[simp] theorem countArrivals_fuel_update (j : JNum) (es : List Event) :
    countArrivals (Event.fuel_update j :: es) = countArrivals es := by
  simp [countArrivals, List.countP_cons, Event.isArrival]

@[simp] theorem countArrivals_arrival (p : List ℝ) (j : JNum) (t : ℕ)
    (es : List Event) :
    countArrivals (Event.arrival p j t :: es) = countArrivals es + 1 := by
  simp [countArrivals, List.countP_cons, Event.isArrival]

/-- C3. Arrival postcondition and uniqueness: on the tick whose
remaining distance is at or below the arrival threshold (with fuel
still sufficient) the position is set exactly to the destination, the
loop stops, the destination is cleared, exactly one Arrival event is
appended, the re-entrancy flag is raised, and any further notifyArrival
before the cool-down clears the flag is a no-op that publishes
nothing. -/
theorem arrival_postcondition (s : SimState) (dest : Vector3) (f : ℝ)
    (now : ℕ) (hd : s.destination = some dest) (hrun : s.isRunning = true)
    (hflag : s.isNotifyingArrival = false)
    (hf : getCurrentFuel s.store = .num f) (h1 : ¬ f ≤ 0)
    (h2 : ¬ f - fuelPerTick ≤ 0)
    (hdist : calculateDistance s.currentPosition dest ≤ ARRIVAL_THRESHOLD) :
    (updatePosition s now).currentPosition = dest ∧
    (updatePosition s now).isRunning = false ∧
    (updatePosition s now).destination = none ∧
    (updatePosition s now).isNotifyingArrival = true ∧
    countArrivals (updatePosition s now).events =
      countArrivals s.events + 1 ∧
    ∀ p now2, notifyArrival (updatePosition s now) p now2 =
      updatePosition s now := by
  have h2' : ¬ f - MOVEMENT_SPEED * (UPDATE_INTERVAL / 1000) *
      FUEL_CONSUMPTION_RATE ≤ 0 := by
    rw [fuelPerTick, movePerTick] at h2; exact h2
  have hfour : (updatePosition s now).isNotifyingArrival = true := by
    simp only [updatePosition, hd, hrun, hf, JNum.sub, JNum.jsLe, h1, h2',
      if_true, if_false, ite_true, ite_false, reduceIte, not_false_eq_true,
      updateFuel]
    rw [if_neg (by simp : ¬ (true = false)), if_pos hdist]
    apply notifyArrival_flag
    simp [hflag]
  refine ⟨?_, ?_, ?_, hfour, ?_,
    fun p now2 => notifyArrival_of_flagged _ p now2 hfour⟩
  all_goals
    simp only [updatePosition, hd, hrun, hf, JNum.sub, JNum.jsLe, h1, h2',
      if_true, if_false, ite_true, ite_false, reduceIte, not_false_eq_true,
      updateFuel]
  all_goals rw [if_neg (by simp : ¬ (true = false)), if_pos hdist]
  · simp
  · simp
  · simp
  · rw [notifyArrival_events _ _ _ (by simp [hflag])]
    simp

/-- Concrete arriving state used to instantiate C3. -/
def wArrive : SimState :=
  { currentPosition := ⟨0, 0, 0⟩
    destination := some ⟨5, 0, 0⟩
    isRunning := true
    isNotifyingArrival := false
    store := ⟨none, none, none, some (.numeric 50), none, none, none⟩
    events := []
    cmds := [] }

/-- Witness for C3 at wArrive, five units from its destination. -/
theorem arrival_postcondition_witness :
    calculateDistance wArrive.currentPosition ⟨5, 0, 0⟩ ≤
      ARRIVAL_THRESHOLD ∧
    countArrivals (updatePosition wArrive 11).events = 1 := by
  have hdist : calculateDistance wArrive.currentPosition ⟨5, 0, 0⟩ ≤
      ARRIVAL_THRESHOLD := by
    unfold calculateDistance wArrive ARRIVAL_THRESHOLD
    have h25 : Real.sqrt 25 = 5 := by
      rw [show (25 : ℝ) = 5 ^ 2 by norm_num,
        Real.sqrt_sq (by norm_num : (0 : ℝ) ≤ 5)]
    norm_num [h25]
  refine ⟨hdist, ?_⟩
  have h := (arrival_postcondition wArrive ⟨5, 0, 0⟩ 50 11 rfl rfl rfl rfl
    (by norm_num)
    (by norm_num [fuelPerTick, movePerTick, MOVEMENT_SPEED, UPDATE_INTERVAL,
      FUEL_CONSUMPTION_RATE]) hdist).2.2.2.2.1
  simpa [wArrive] using h

/-- One steady-state tick: with the destination beyond the arrival
threshold and more than one tick's fuel available, the tick advances
the position by exactly the candidate travel distance along the unit
direction vector, keeps the transit running, and deducts one tick's
fuel draw. -/
theorem steady_tick (s : SimState) (dest : Vector3) (f : ℝ) (now : ℕ)
    (hd : s.destination = some dest) (hrun : s.isRunning = true)
    (hf : getCurrentFuel s.store = .num f)
    (hmove : fuelPerTick < f)
    (hdist : ARRIVAL_THRESHOLD < calculateDistance s.currentPosition dest) :
    (updatePosition s now).currentPosition = s.currentPosition +
      movePerTick • normalizeVector (dest - s.currentPosition) ∧
    (updatePosition s now).destination = some dest ∧
    (updatePosition s now).isRunning = true ∧
    getCurrentFuel (updatePosition s now).store = .num (f - fuelPerTick) := by
  have hfpos : (0 : ℝ) < fuelPerTick := by
    norm_num [fuelPerTick, movePerTick, MOVEMENT_SPEED, UPDATE_INTERVAL,
      FUEL_CONSUMPTION_RATE]
  have hdep := hmove
  rw [fuelPerTick, movePerTick] at hdep
  have h1 : ¬ f ≤ 0 := not_le.mpr (lt_trans hfpos hmove)
  have h2' : ¬ f - MOVEMENT_SPEED * (UPDATE_INTERVAL / 1000) *
      FUEL_CONSUMPTION_RATE ≤ 0 := not_le.mpr (by linarith)
  have harr : ¬ calculateDistance s.currentPosition dest ≤
      ARRIVAL_THRESHOLD := not_le.mpr hdist
  have hm10 : MOVEMENT_SPEED * (UPDATE_INTERVAL / 1000) ≤
      ARRIVAL_THRESHOLD := by
    norm_num [MOVEMENT_SPEED, UPDATE_INTERVAL, ARRIVAL_THRESHOLD]
  have hminle : MOVEMENT_SPEED * (UPDATE_INTERVAL / 1000) ≤
      calculateDistance s.currentPosition dest :=
    le_trans hm10 (le_of_lt hdist)
  refine ⟨?_, ?_, ?_, ?_⟩
  all_goals
    simp only [updatePosition, hd, hrun, hf, JNum.sub, JNum.jsLe, JNum.max0,
      h1, h2', if_true, if_false, ite_true, ite_false, reduceIte,
      not_false_eq_true, updateFuel]
  all_goals rw [if_neg (by simp : ¬ (true = false)), if_neg harr]
  · simp only [updateRedisPosition_currentPosition]
    rw [min_eq_left hminle, Vector3.sub_def]
    apply Vector3.ext_comp <;> simp [movePerTick] <;> ring
  · simp
  · simp
  · rw [getCurrentFuel_updateRedisPosition]
    refine (getCurrentFuel_of_encoded _ _ rfl).trans ?_
    rw [max_eq_right (by linarith), fuelPerTick, movePerTick]

/-- N steady-state ticks advance the position by N candidate travel
distances along the fixed unit direction of the transit. -/
theorem steady_iter (times : List ℕ) :
    ∀ (s : SimState) (dest : Vector3) (f : ℝ),
      s.destination = some dest → s.isRunning = true →
      getCurrentFuel s.store = .num f →
      (times.length : ℝ) * fuelPerTick < f →
      ARRIVAL_THRESHOLD + (times.length : ℝ) * movePerTick <
        calculateDistance s.currentPosition dest →
      (iterTicks times s).currentPosition = s.currentPosition +
        ((times.length : ℝ) * movePerTick) • normalizeVector
          (dest - s.currentPosition) := by
  induction times with
  | nil =>
    intro s dest f hd hrun hf hfuel hdist
    simp only [iterTicks, List.foldl_nil, List.length_nil, Nat.cast_zero,
      zero_mul]
    apply Vector3.ext_comp <;> simp
  | cons t ts ih =>
    intro s dest f hd hrun hf hfuel hdist
    simp only [List.length_cons] at hfuel hdist
    push_cast at hfuel hdist
    have hthr : (0 : ℝ) ≤ ARRIVAL_THRESHOLD := by norm_num [ARRIVAL_THRESHOLD]
    have hmpos : (0 : ℝ) < movePerTick := by
      norm_num [movePerTick, MOVEMENT_SPEED, UPDATE_INTERVAL]
    have hfpos : (0 : ℝ) < fuelPerTick := by
      norm_num [fuelPerTick, movePerTick, MOVEMENT_SPEED, UPDATE_INTERVAL,
        FUEL_CONSUMPTION_RATE]
    have hlen : (0 : ℝ) ≤ (ts.length : ℝ) := Nat.cast_nonneg _
    have hone : fuelPerTick < f := by nlinarith
    have hLm : 0 < ((ts.length : ℝ) + 1) * movePerTick :=
      mul_pos (by linarith) hmpos
    have hdist1 : ARRIVAL_THRESHOLD < calculateDistance s.currentPosition
        dest := by linarith
    obtain ⟨hpos1, hd1, hr1, hf1⟩ := steady_tick s dest f t hd hrun hf hone
      hdist1
    have hD0 : 0 < calculateDistance s.currentPosition dest :=
      lt_of_le_of_lt hthr hdist1
    have hvlen : vlen (dest - s.currentPosition) =
        calculateDistance s.currentPosition dest :=
      (calculateDistance_eq_vlen s.currentPosition dest).symm
    have hvne : vlen (dest - s.currentPosition) ≠ 0 := by
      rw [hvlen]; exact ne_of_gt hD0
    have hulen : vlen (normalizeVector (dest - s.currentPosition)) = 1 :=
      vlen_normalize _ hvne
    have hveq : dest - s.currentPosition =
        calculateDistance s.currentPosition dest •
          normalizeVector (dest - s.currentPosition) := by
      rw [← hvlen]
      exact self_eq_vlen_smul_normalize _ hvne
    have hcx := congrArg Vector3.x hveq
    have hcy := congrArg Vector3.y hveq
    have hcz := congrArg Vector3.z hveq
    simp only [Vector3.sub_x, Vector3.sub_y, Vector3.sub_z, Vector3.smul_x,
      Vector3.smul_y, Vector3.smul_z] at hcx hcy hcz
    have hnew : dest - (updatePosition s t).currentPosition =
        (calculateDistance s.currentPosition dest - movePerTick) •
          normalizeVector (dest - s.currentPosition) := by
      apply Vector3.ext_comp <;>
        simp only [hpos1, Vector3.sub_x, Vector3.sub_y, Vector3.sub_z,
          Vector3.add_x, Vector3.add_y, Vector3.add_z, Vector3.smul_x,
          Vector3.smul_y, Vector3.smul_z]
      · linear_combination hcx
      · linear_combination hcy
      · linear_combination hcz
    have haux : movePerTick ≤ ((ts.length : ℝ) + 1) * movePerTick := by
      nlinarith
    have hDm : 0 < calculateDistance s.currentPosition dest - movePerTick :=
      by linarith
    have hdist2 : calculateDistance (updatePosition s t).currentPosition
        dest = calculateDistance s.currentPosition dest - movePerTick := by
      rw [calculateDistance_eq_vlen, hnew, vlen_smul, hulen, mul_one,
        abs_of_pos hDm]
    have hdir2 : normalizeVector (dest - (updatePosition s t).currentPosition)
        = normalizeVector (dest - s.currentPosition) := by
      rw [hnew, normalize_smul_pos _ _ hDm]
      exact normalize_unit _ hulen
    have hstep := ih (updatePosition s t) dest (f - fuelPerTick) hd1 hr1 hf1
      (by linarith) (by rw [hdist2]; linarith)
    have hfold : iterTicks (t :: ts) s = iterTicks ts (updatePosition s t) :=
      rfl
    rw [hfold, hstep, hdir2, hpos1]
    simp only [List.length_cons]
    push_cast
    apply Vector3.ext_comp <;>
      simp only [Vector3.add_x, Vector3.add_y, Vector3.add_z, Vector3.smul_x,
        Vector3.smul_y, Vector3.smul_z] <;> ring

/-- C4. Steady-state displacement: over N consecutive ticks of a
transit that stays above the arrival threshold and never depletes,
each tick advances the position by the candidate travel distance (the
min of candidate and remaining distance) along the unit direction, so
the net displacement equals N × (tick period in seconds) × (configured
linear speed), exactly in the real-number model. -/
theorem steady_state_displacement (times : List ℕ) (s : SimState)
    (dest : Vector3) (f : ℝ) (hd : s.destination = some dest)
    (hrun : s.isRunning = true) (hf : getCurrentFuel s.store = .num f)
    (hfuel : (times.length : ℝ) * fuelPerTick < f)
    (hdist : ARRIVAL_THRESHOLD + (times.length : ℝ) * movePerTick <
      calculateDistance s.currentPosition dest) :
    (iterTicks times s).currentPosition = s.currentPosition +
      ((times.length : ℝ) * movePerTick) • normalizeVector
        (dest - s.currentPosition) ∧
    calculateDistance s.currentPosition
        (iterTicks times s).currentPosition =
      (times.length : ℝ) * ((UPDATE_INTERVAL / 1000) * MOVEMENT_SPEED) := by
  have h1 := steady_iter times s dest f hd hrun hf hfuel hdist
  refine ⟨h1, ?_⟩
  have hthr : (0 : ℝ) ≤ ARRIVAL_THRESHOLD := by norm_num [ARRIVAL_THRESHOLD]
  have hmpos : (0 : ℝ) < movePerTick := by
    norm_num [movePerTick, MOVEMENT_SPEED, UPDATE_INTERVAL]
  have hlen : (0 : ℝ) ≤ (times.length : ℝ) := Nat.cast_nonneg _
  have hLm : 0 ≤ (times.length : ℝ) * movePerTick :=
    mul_nonneg hlen (le_of_lt hmpos)
  have hD0 : 0 < calculateDistance s.currentPosition dest := by linarith
  have hvne : vlen (dest - s.currentPosition) ≠ 0 := by
    rw [show vlen (dest - s.currentPosition) =
      calculateDistance s.currentPosition dest from
      (calculateDistance_eq_vlen _ _).symm]
    exact ne_of_gt hD0
  have hulen := vlen_normalize _ hvne
  have hsub : (iterTicks times s).currentPosition - s.currentPosition =
      ((times.length : ℝ) * movePerTick) • normalizeVector
        (dest - s.currentPosition) := by
    apply Vector3.ext_comp <;> simp [h1]
  rw [calculateDistance_eq_vlen, hsub, vlen_smul, hulen, mul_one,
    abs_of_nonneg hLm, movePerTick]
  ring

/-- Concrete mid-transit state used to instantiate C4. -/
def wSteady : SimState :=
  { currentPosition := ⟨0, 0, 0⟩
    destination := some ⟨100, 0, 0⟩
    isRunning := true
    isNotifyingArrival := false
    store := ⟨none, none, none, some (.numeric 100), none, none, none⟩
    events := []
    cmds := [] }

/-- Witness for C4: one tick from wSteady covers exactly one candidate
travel distance. -/
theorem steady_state_displacement_witness :
    ARRIVAL_THRESHOLD + (([0] : List ℕ).length : ℝ) * movePerTick <
      calculateDistance wSteady.currentPosition ⟨100, 0, 0⟩ ∧
    calculateDistance wSteady.currentPosition
        (iterTicks [0] wSteady).currentPosition =
      (([0] : List ℕ).length : ℝ) *
        ((UPDATE_INTERVAL / 1000) * MOVEMENT_SPEED) := by
  have h100 : calculateDistance wSteady.currentPosition ⟨100, 0, 0⟩ =
      100 := by
    show Real.sqrt (((100 : ℝ) - 0) ^ 2 + ((0 : ℝ) - 0) ^ 2 +
      ((0 : ℝ) - 0) ^ 2) = 100
    rw [show ((100 : ℝ) - 0) ^ 2 + ((0 : ℝ) - 0) ^ 2 +
      ((0 : ℝ) - 0) ^ 2 = 100 ^ 2 by norm_num]
    exact Real.sqrt_sq (by norm_num : (0 : ℝ) ≤ 100)
  have hdist : ARRIVAL_THRESHOLD + (([0] : List ℕ).length : ℝ) *
      movePerTick < calculateDistance wSteady.currentPosition
        ⟨100, 0, 0⟩ := by
    rw [h100]
    norm_num [ARRIVAL_THRESHOLD, movePerTick, MOVEMENT_SPEED,
      UPDATE_INTERVAL]
  exact ⟨hdist,
    (steady_state_displacement [0] wSteady ⟨100, 0, 0⟩ 100 rfl rfl rfl
      (by norm_num [fuelPerTick, movePerTick, MOVEMENT_SPEED,
        UPDATE_INTERVAL, FUEL_CONSUMPTION_RATE]) hdist).2⟩
